import Mathlib

/-!
Verification of the performance-monitor core (src/performance-monitor/src/main.cpp).

The C++ class SystemMetrics keeps a std::queue<MetricSnapshot> metric_history
guarded by data_mutex.  We embed the queue as a Lean List (front of the queue =
head of the list = oldest entry), the sampler tick's append as push followed by a
conditional pop (exactly the order of monitor_loop, lines 159-164), and the
query get_history as a copy-and-take from the front (lines 105-119).  Double
readings supplied by the platform metric sources are carried as integer values:
no claim depends on their arithmetic, only on which field was assigned.
-/

namespace PerfMon

/-- Embeds SystemMetrics::ProcessInfo (main.cpp lines 56-62). -/
structure ProcessInfo where
  pid : Nat
  name : String
  cpu_percent : Int
  memory_bytes : Nat
  status : String
  deriving DecidableEq

/-- Embeds SystemMetrics::MetricSnapshot (main.cpp lines 46-54).  A field of a
default-constructed snapshot that get_current_metrics never assigns (because an
earlier source threw) is modelled as none; an assigned field as some value.
The top_processes vector default-constructs empty, modelled as the empty list. -/
structure MetricSnapshot where
  timestamp : Nat
  cpu_usage : Option Int
  memory_usage : Option Int
  disk_usage : Option Int
  network_rx : Option Int
  network_tx : Option Int
  top_processes : List ProcessInfo
  deriving DecidableEq

/-- Embeds SystemMetrics::MAX_HISTORY_SIZE (main.cpp line 39). -/
def MAX_HISTORY_SIZE : Nat := 1000

/-- metric_history.push(snapshot): enqueue at the back (main.cpp line 160). -/
def push_snapshot (h : List MetricSnapshot) (s : MetricSnapshot) :
    List MetricSnapshot :=
  h ++ [s]

/-- if (metric_history.size() > MAX_HISTORY_SIZE) metric_history.pop():
dequeue the front when over capacity (main.cpp lines 162-164). -/
def evict_if_over (cap : Nat) (h : List MetricSnapshot) : List MetricSnapshot :=
  if cap < h.length then h.tail else h

/-- One tick's append as monitor_loop performs it: push the new snapshot, then
pop the oldest entry when the size exceeds the capacity. -/
def monitor_append (cap : Nat) (h : List MetricSnapshot) (s : MetricSnapshot) :
    List MetricSnapshot :=
  evict_if_over cap (push_snapshot h s)

/-- The buffer states visited inside one tick's append, in order: after the
push, and after the conditional pop.  Both happen under data_mutex. -/
def append_tick_states (cap : Nat) (h : List MetricSnapshot)
    (s : MetricSnapshot) : List (List MetricSnapshot) :=
  [push_snapshot h s, evict_if_over cap (push_snapshot h s)]

/-- The buffer produced by the sampler loop appending the given snapshots, in
order, to an initially empty history. -/
def run_appends (cap : Nat) (snaps : List MetricSnapshot) :
    List MetricSnapshot :=
  snaps.foldl (monitor_append cap) []

/-- Embeds SystemMetrics::get_history (main.cpp lines 105-119): under the lock
it copies the queue and takes items = (count == 0 || count > size) ? size :
count entries from the front, i.e. oldest first. -/
def get_history (h : List MetricSnapshot) (count : Nat) :
    List MetricSnapshot :=
  h.take (if count = 0 ∨ h.length < count then h.length else count)

/-- The implicit conversion a C++ caller passing a negative signed integer to
the size_t count parameter performs: reduction modulo 2 to the 64. -/
def size_t_of_int (n : Int) : Nat :=
  (n % 18446744073709551616).toNat

/-- get_history as reached from a signed (possibly negative) count argument. -/
def get_history_int (h : List MetricSnapshot) (count : Int) :
    List MetricSnapshot :=
  get_history h (size_t_of_int count)

/-- A snapshot payload used for concrete scenarios: only the timestamp varies,
every metric field assigned. -/
def mkSnap (t : Nat) : MetricSnapshot :=
  { timestamp := t, cpu_usage := some 0, memory_usage := some 0,
    disk_usage := some 0, network_rx := some 0, network_tx := some 0,
    top_processes := [] }

/-- The per-call results of the platform metric sources during one build, in
the order get_current_metrics calls them (main.cpp lines 91-97).  Each call
either throws (error) or produces a reading (ok); get_top_processes is the
result of the call with count 10. -/
structure MetricSources where
  get_cpu_usage : Except String Int
  get_memory_usage : Except String Int
  get_disk_usage : Except String Int
  get_network_usage : Except String (Int × Int)
  get_top_processes : Except String (List ProcessInfo)

/-- The default-constructed MetricSnapshot after the timestamp assignment of
main.cpp line 88: no metric field assigned yet. -/
def empty_snapshot (now : Nat) : MetricSnapshot :=
  { timestamp := now, cpu_usage := none, memory_usage := none,
    disk_usage := none, network_rx := none, network_tx := none,
    top_processes := [] }

/-- Embeds SystemMetrics::get_current_metrics (main.cpp lines 86-103): the
sequence of field assignments sits in one try block, so the first throwing
source aborts every later assignment, the exception is caught and logged, and
the snapshot is returned as it stands at that point. -/
def get_current_metrics (now : Nat) (src : MetricSources) : MetricSnapshot :=
  let s0 := empty_snapshot now
  match src.get_cpu_usage with
  | .error _ => s0
  | .ok cpu =>
    let s1 := { s0 with cpu_usage := some cpu }
    match src.get_memory_usage with
    | .error _ => s1
    | .ok mem =>
      let s2 := { s1 with memory_usage := some mem }
      match src.get_disk_usage with
      | .error _ => s2
      | .ok disk =>
        let s3 := { s2 with disk_usage := some disk }
        match src.get_network_usage with
        | .error _ => s3
        | .ok net =>
          let s4 := { s3 with network_rx := some net.1,
                              network_tx := some net.2 }
          match src.get_top_processes with
          | .error _ => s4
          | .ok procs => { s4 with top_processes := procs }

/-- The lifecycle state of one SystemMetrics instance: the monitoring flag
(std::atomic<bool> monitoring, main.cpp line 35) and the number of live
sampling loops (threads running monitor_loop). -/
structure MonitorState where
  monitoring : Bool
  activeLoops : Nat
  deriving DecidableEq

/-- The state at construction: flag false, no loop running. -/
def initState : MonitorState := { monitoring := false, activeLoops := 0 }

/-- Embeds SystemMetrics::start_monitoring (main.cpp lines 64-72): when the
flag is already set it returns at once; otherwise it sets the flag and spawns
one monitoring thread. -/
def start_monitoring (s : MonitorState) : MonitorState :=
  if s.monitoring then s
  else { monitoring := true, activeLoops := s.activeLoops + 1 }

/-- Embeds SystemMetrics::stop_monitoring (main.cpp lines 74-84): when the
flag is already clear it returns at once; otherwise it clears the flag and
joins the monitoring thread, which exits its loop once the flag is clear. -/
def stop_monitoring (s : MonitorState) : MonitorState :=
  if s.monitoring then { monitoring := false, activeLoops := s.activeLoops - 1 }
  else s

/-- The lifecycle invariant: exactly one loop runs while monitoring, none
otherwise.  It holds at initState and is preserved by both operations. -/
def LoopInv (s : MonitorState) : Prop :=
  s.activeLoops = if s.monitoring then 1 else 0

section BufferLemmas

theorem run_appends_concat (cap : Nat) (L : List MetricSnapshot)
    (s : MetricSnapshot) :
    run_appends cap (L ++ [s]) = monitor_append cap (run_appends cap L) s := by
  simp [run_appends, List.foldl_append]

/-- The queue after the sampler has appended the whole list L is the suffix of
L that drops everything beyond the last cap entries. -/
theorem run_appends_eq_drop (cap : Nat) (L : List MetricSnapshot) :
    run_appends cap L = L.drop (L.length - cap) := by
  induction L using List.reverseRecOn with
  | nil => simp [run_appends]
  | append_singleton M s ih =>
    rw [run_appends_concat, ih]
    by_cases hlt : M.length < cap
    · have h0 : M.length - cap = 0 := by omega
      have h1 : (M ++ [s]).length - cap = 0 := by
        simp [List.length_append]; omega
      have hnc : ¬ cap < (push_snapshot M s).length := by
        simp [push_snapshot, List.length_append]; omega
      rw [h0, List.drop_zero, monitor_append, evict_if_over, if_neg hnc,
        h1, List.drop_zero, push_snapshot]
    · have hk : M.length - cap ≤ M.length := Nat.sub_le _ _
      have hlen : (M.drop (M.length - cap)).length = cap := by
        simp [List.length_drop]; omega
      have hcond : cap < (push_snapshot (M.drop (M.length - cap)) s).length := by
        simp [push_snapshot, hlen]
      rw [monitor_append, evict_if_over, if_pos hcond]
      have hsplit : push_snapshot (M.drop (M.length - cap)) s
          = (M ++ [s]).drop (M.length - cap) := by
        rw [push_snapshot, List.drop_append_of_le_length hk]
      rw [hsplit, List.tail_drop]
      congr 1
      simp [List.length_append]
      omega

/-- After appending n snapshots the buffer holds min n cap entries. -/
theorem run_appends_length (cap : Nat) (L : List MetricSnapshot) :
    (run_appends cap L).length = min L.length cap := by
  rw [run_appends_eq_drop, List.length_drop]
  omega

/-- get_history with count 0 returns the whole retained history. -/
theorem get_history_zero (h : List MetricSnapshot) : get_history h 0 = h := by
  simp [get_history]

end BufferLemmas

/-- Claim C1: for every sequence of append operations performed by the sampler
loop on an initially empty history buffer, after every append (that is, after
every prefix of the appended sequence) the buffer size is at most the capacity
MAX_HISTORY_SIZE = 1000 and equals min(appends so far, capacity). -/
theorem history_size_bounded (L : List MetricSnapshot) (k : Nat)
    (hk : k ≤ L.length) :
    (run_appends MAX_HISTORY_SIZE (L.take k)).length
        = min k MAX_HISTORY_SIZE ∧
    (run_appends MAX_HISTORY_SIZE (L.take k)).length ≤ MAX_HISTORY_SIZE := by
  have h := run_appends_length MAX_HISTORY_SIZE (L.take k)
  rw [List.length_take] at h
  refine ⟨?_, ?_⟩ <;> rw [h] <;> omega

theorem history_size_bounded_witness :
    (run_appends MAX_HISTORY_SIZE
        (([mkSnap 1, mkSnap 2, mkSnap 3] : List MetricSnapshot).take 2)).length
      = min 2 MAX_HISTORY_SIZE ∧
    (run_appends MAX_HISTORY_SIZE
        (([mkSnap 1, mkSnap 2, mkSnap 3] : List MetricSnapshot).take 2)).length
      ≤ MAX_HISTORY_SIZE :=
  history_size_bounded [mkSnap 1, mkSnap 2, mkSnap 3] 2 (by decide)

/-- Claim C2: after appending C+1 snapshots s0..sC in order to an initially
empty buffer of capacity C, the retained history — what history(0) returns —
is exactly s1..sC in order: only the single oldest entry was evicted.  The
witness instantiates the C = 3 scenario with timestamps 1 < 2 < 3 < 4, whose
history(0) is the snapshots timestamped 2, 3, 4. -/
theorem fifo_eviction (C : Nat) (L : List MetricSnapshot)
    (hlen : L.length = C + 1) :
    get_history (run_appends C L) 0 = L.drop 1 := by
  rw [get_history_zero, run_appends_eq_drop, hlen]
  congr 1
  omega

theorem fifo_eviction_witness :
    get_history
      (run_appends 3 [mkSnap 1, mkSnap 2, mkSnap 3, mkSnap 4]) 0
      = ([mkSnap 1, mkSnap 2, mkSnap 3, mkSnap 4] : List MetricSnapshot).drop 1 :=
  fifo_eviction 3 [mkSnap 1, mkSnap 2, mkSnap 3, mkSnap 4] (by decide)

/-- Claim C3 counterexample: on a buffer holding the snapshots timestamped
1, 2, 3 (oldest first), get_history with count 2 returns the two OLDEST
entries [t1, t2] — the code takes from the front of the copied queue — and not
the two most recently inserted entries [t2, t3] the claim demands. -/
theorem history_count_not_recent :
    get_history [mkSnap 1, mkSnap 2, mkSnap 3] 2 = [mkSnap 1, mkSnap 2] ∧
    get_history [mkSnap 1, mkSnap 2, mkSnap 3] 2 ≠ [mkSnap 2, mkSnap 3] := by
  constructor <;> decide

/-- Claim C3 amended: for every buffer holding m entries oldest-first and
every count n with 0 < n < m, get_history returns the n OLDEST retained
entries — the length-n front segment of the buffer in insertion order — not
the n most recent ones. -/
theorem history_count_oldest (h : List MetricSnapshot) (n : Nat)
    (h0 : 0 < n) (hn : n < h.length) :
    get_history h n = h.take n := by
  unfold get_history
  have hc : ¬ (n = 0 ∨ h.length < n) := by omega
  rw [if_neg hc]

theorem history_count_oldest_witness :
    get_history [mkSnap 1, mkSnap 2, mkSnap 3] 2
      = ([mkSnap 1, mkSnap 2, mkSnap 3] : List MetricSnapshot).take 2 :=
  history_count_oldest [mkSnap 1, mkSnap 2, mkSnap 3] 2 (by decide) (by decide)

/-- A concrete build in which only the memory source fails while every other
source produces a reading. -/
def srcMemFails : MetricSources :=
  { get_cpu_usage := .ok 25, get_memory_usage := .error "sysinfo failed",
    get_disk_usage := .ok 40, get_network_usage := .ok (100, 200),
    get_top_processes := .ok [] }

/-- Claim C4 counterexample: with only the memory source failing, the disk
source produced 40, yet the returned snapshot's disk_usage does not carry
that value — the single try block of get_current_metrics abandons every
assignment after the throwing call, so disk, network and process fields stay
at their default-constructed state. -/
theorem builder_skips_later_sources :
    (get_current_metrics 5 srcMemFails).cpu_usage = some 25 ∧
    (get_current_metrics 5 srcMemFails).disk_usage = none ∧
    (get_current_metrics 5 srcMemFails).disk_usage ≠ some 40 ∧
    srcMemFails.get_disk_usage = Except.ok 40 := by
  refine ⟨rfl, rfl, ?_, rfl⟩
  decide

/-- Claim C4 amended: whichever single source fails, the builder never
propagates the failure and always returns a snapshot; fields assigned by
sources called BEFORE the failing one carry their source values, but the
failing field and every field whose source is called after it are left at the
default-constructed state (unassigned metric fields, empty process vector),
not at their own sources' readings and not at a documented sentinel.  One
conjunct per failing source, in the call order of get_current_metrics; no
conjunct constrains the sources after the failing one, so each covers the
exactly-one-failure case of the claim. -/
theorem builder_partial_failure (now : Nat) (src : MetricSources) :
    (∀ e, src.get_cpu_usage = Except.error e →
      get_current_metrics now src = empty_snapshot now) ∧
    (∀ c e, src.get_cpu_usage = Except.ok c →
      src.get_memory_usage = Except.error e →
      get_current_metrics now src =
        { empty_snapshot now with cpu_usage := some c }) ∧
    (∀ c m e, src.get_cpu_usage = Except.ok c →
      src.get_memory_usage = Except.ok m →
      src.get_disk_usage = Except.error e →
      get_current_metrics now src =
        { empty_snapshot now with
            cpu_usage := some c, memory_usage := some m }) ∧
    (∀ c m d e, src.get_cpu_usage = Except.ok c →
      src.get_memory_usage = Except.ok m →
      src.get_disk_usage = Except.ok d →
      src.get_network_usage = Except.error e →
      get_current_metrics now src =
        { empty_snapshot now with
            cpu_usage := some c, memory_usage := some m,
            disk_usage := some d }) ∧
    (∀ c m d net e, src.get_cpu_usage = Except.ok c →
      src.get_memory_usage = Except.ok m →
      src.get_disk_usage = Except.ok d →
      src.get_network_usage = Except.ok net →
      src.get_top_processes = Except.error e →
      get_current_metrics now src =
        { empty_snapshot now with
            cpu_usage := some c, memory_usage := some m,
            disk_usage := some d, network_rx := some net.1,
            network_tx := some net.2 }) := by
  refine ⟨?_, ?_, ?_, ?_, ?_⟩
  · intro e hc
    unfold get_current_metrics
    rw [hc]
  · intro c e hc hm
    unfold get_current_metrics
    rw [hc, hm]
  · intro c m e hc hm hd
    unfold get_current_metrics
    rw [hc, hm, hd]
  · intro c m d e hc hm hd hn
    unfold get_current_metrics
    rw [hc, hm, hd, hn]
  · intro c m d net e hc hm hd hn ht
    unfold get_current_metrics
    rw [hc, hm, hd, hn, ht]

/-- A concrete build in which only the cpu source fails. -/
def srcCpuFails : MetricSources :=
  { get_cpu_usage := .error "proc stat unreadable", get_memory_usage := .ok 60,
    get_disk_usage := .ok 40, get_network_usage := .ok (100, 200),
    get_top_processes := .ok [] }

/-- A concrete build in which only the disk source fails. -/
def srcDiskFails : MetricSources :=
  { get_cpu_usage := .ok 25, get_memory_usage := .ok 60,
    get_disk_usage := .error "statvfs failed", get_network_usage := .ok (100, 200),
    get_top_processes := .ok [] }

/-- A concrete build in which only the network source fails. -/
def srcNetFails : MetricSources :=
  { get_cpu_usage := .ok 25, get_memory_usage := .ok 60,
    get_disk_usage := .ok 40, get_network_usage := .error "proc net dev unreadable",
    get_top_processes := .ok [] }

/-- A concrete build in which only the process source fails. -/
def srcTopFails : MetricSources :=
  { get_cpu_usage := .ok 25, get_memory_usage := .ok 60,
    get_disk_usage := .ok 40, get_network_usage := .ok (100, 200),
    get_top_processes := .error "proc unreadable" }

theorem builder_partial_failure_witness :
    get_current_metrics 5 srcCpuFails = empty_snapshot 5 ∧
    get_current_metrics 5 srcMemFails =
      { empty_snapshot 5 with cpu_usage := some 25 } ∧
    get_current_metrics 5 srcDiskFails =
      { empty_snapshot 5 with
          cpu_usage := some 25, memory_usage := some 60 } ∧
    get_current_metrics 5 srcNetFails =
      { empty_snapshot 5 with
          cpu_usage := some 25, memory_usage := some 60,
          disk_usage := some 40 } ∧
    get_current_metrics 5 srcTopFails =
      { empty_snapshot 5 with
          cpu_usage := some 25, memory_usage := some 60,
          disk_usage := some 40, network_rx := some 100,
          network_tx := some 200 } :=
  ⟨(builder_partial_failure 5 srcCpuFails).1 "proc stat unreadable" rfl,
   (builder_partial_failure 5 srcMemFails).2.1 25 "sysinfo failed" rfl rfl,
   (builder_partial_failure 5 srcDiskFails).2.2.1 25 60 "statvfs failed"
     rfl rfl rfl,
   (builder_partial_failure 5 srcNetFails).2.2.2.1 25 60 40
     "proc net dev unreadable" rfl rfl rfl rfl,
   (builder_partial_failure 5 srcTopFails).2.2.2.2 25 60 40 (100, 200)
     "proc unreadable" rfl rfl rfl rfl rfl⟩

/-- A buffer already filled to capacity. -/
def bufFull : List MetricSnapshot := List.replicate MAX_HISTORY_SIZE (mkSnap 0)

/-- Claim C5 counterexample: appending to a buffer holding exactly
MAX_HISTORY_SIZE entries does NOT evict before inserting — monitor_loop pushes
first and pops after, so the state visited between the two steps holds
MAX_HISTORY_SIZE + 1 = 1001 entries, refuting "at no point during the append
does the buffer hold more than C entries". -/
theorem append_transiently_exceeds_capacity :
    ¬ (∀ st ∈ append_tick_states MAX_HISTORY_SIZE bufFull (mkSnap 1),
        st.length ≤ MAX_HISTORY_SIZE) := by
  intro hall
  have h1 := hall (push_snapshot bufFull (mkSnap 1))
    (by simp [append_tick_states])
  have hlen : (push_snapshot bufFull (mkSnap 1)).length
      = MAX_HISTORY_SIZE + 1 := by
    rw [push_snapshot, List.length_append, bufFull, List.length_replicate,
      List.length_singleton]
  rw [hlen] at h1
  omega

/-- Claim C5 amended: the append pushes the new entry first and only then
evicts the oldest, transiently holding C+1 entries inside the locked section;
once the append completes the size is back within C, and (for positive
capacity) the final state is exactly what evict-before-insert would have
produced: the oldest entry removed when the buffer was full, the new entry at
the back. -/
theorem append_then_evict (cap : Nat) (h : List MetricSnapshot)
    (s : MetricSnapshot) (hcap : 0 < cap) (hle : h.length ≤ cap) :
    (monitor_append cap h s).length ≤ cap ∧
    monitor_append cap h s
      = push_snapshot (if h.length = cap then h.tail else h) s := by
  unfold monitor_append push_snapshot evict_if_over
  by_cases heq : h.length = cap
  · rw [if_pos heq]
    have hlt : cap < (h ++ [s]).length := by simp; omega
    rw [if_pos hlt]
    cases h with
    | nil => simp at heq; omega
    | cons a t =>
      refine ⟨?_, by simp⟩
      simp at heq ⊢
      omega
  · rw [if_neg heq]
    have hnlt : ¬ cap < (h ++ [s]).length := by simp; omega
    rw [if_neg hnlt]
    refine ⟨?_, rfl⟩
    simp
    omega

theorem append_then_evict_witness :
    (monitor_append 2 [mkSnap 1, mkSnap 2] (mkSnap 3)).length ≤ 2 ∧
    monitor_append 2 [mkSnap 1, mkSnap 2] (mkSnap 3)
      = push_snapshot
          (if ([mkSnap 1, mkSnap 2] : List MetricSnapshot).length = 2
            then ([mkSnap 1, mkSnap 2] : List MetricSnapshot).tail
            else [mkSnap 1, mkSnap 2]) (mkSnap 3) :=
  append_then_evict 2 [mkSnap 1, mkSnap 2] (mkSnap 3) (by decide) (by decide)

/-- Claim C6: for every buffer state produced by successive sampler ticks
(appending the snapshots L in tick order to the empty buffer), history(0)
returns all retained entries, those entries are a suffix of L in exact
insertion order, and — assuming the capture clock was monotonic across ticks,
i.e. the appended timestamps were non-decreasing — the returned timestamps
are non-decreasing. -/
theorem history_order_preserved (L : List MetricSnapshot)
    (hmono : List.Sorted (· ≤ ·) (L.map MetricSnapshot.timestamp)) :
    get_history (run_appends MAX_HISTORY_SIZE L) 0
        = run_appends MAX_HISTORY_SIZE L ∧
    run_appends MAX_HISTORY_SIZE L = L.drop (L.length - MAX_HISTORY_SIZE) ∧
    List.Sorted (· ≤ ·)
        ((run_appends MAX_HISTORY_SIZE L).map MetricSnapshot.timestamp) := by
  refine ⟨get_history_zero _, run_appends_eq_drop _ _, ?_⟩
  rw [run_appends_eq_drop]
  have hsub : List.Sublist
      ((L.drop (L.length - MAX_HISTORY_SIZE)).map MetricSnapshot.timestamp)
      (L.map MetricSnapshot.timestamp) :=
    (List.drop_sublist _ _).map _
  exact List.Pairwise.sublist hsub hmono

theorem history_order_preserved_witness :
    get_history (run_appends MAX_HISTORY_SIZE [mkSnap 1, mkSnap 2]) 0
        = run_appends MAX_HISTORY_SIZE [mkSnap 1, mkSnap 2] ∧
    run_appends MAX_HISTORY_SIZE [mkSnap 1, mkSnap 2]
        = ([mkSnap 1, mkSnap 2] : List MetricSnapshot).drop
            (([mkSnap 1, mkSnap 2] : List MetricSnapshot).length
              - MAX_HISTORY_SIZE) ∧
    List.Sorted (· ≤ ·)
        ((run_appends MAX_HISTORY_SIZE [mkSnap 1, mkSnap 2]).map
          MetricSnapshot.timestamp) :=
  history_order_preserved [mkSnap 1, mkSnap 2] (by decide)

/-- Claim C7: from any state satisfying the lifecycle invariant, start while
already running is a no-op, a start always leaves exactly one active sampling
loop, stop while already stopped is a no-op, a stop always leaves the flag
clear with zero loops, and both double calls collapse to single calls —
neither signals an error (both functions are total). -/
theorem lifecycle_idempotent (s : MonitorState) (hInv : LoopInv s) :
    (s.monitoring = true → start_monitoring s = s) ∧
    (start_monitoring s).monitoring = true ∧
    (start_monitoring s).activeLoops = 1 ∧
    start_monitoring (start_monitoring s) = start_monitoring s ∧
    (s.monitoring = false → stop_monitoring s = s) ∧
    (stop_monitoring s).monitoring = false ∧
    (stop_monitoring s).activeLoops = 0 ∧
    stop_monitoring (stop_monitoring s) = stop_monitoring s ∧
    LoopInv (start_monitoring s) ∧ LoopInv (stop_monitoring s) := by
  unfold LoopInv at hInv
  obtain ⟨m, a⟩ := s
  cases m <;> simp_all [start_monitoring, stop_monitoring, LoopInv]

theorem lifecycle_idempotent_witness :
    (initState.monitoring = true → start_monitoring initState = initState) ∧
    (start_monitoring initState).monitoring = true ∧
    (start_monitoring initState).activeLoops = 1 ∧
    start_monitoring (start_monitoring initState)
        = start_monitoring initState ∧
    (initState.monitoring = false → stop_monitoring initState = initState) ∧
    (stop_monitoring initState).monitoring = false ∧
    (stop_monitoring initState).activeLoops = 0 ∧
    stop_monitoring (stop_monitoring initState) = stop_monitoring initState ∧
    LoopInv (start_monitoring initState) ∧ LoopInv (stop_monitoring initState) :=
  lifecycle_idempotent initState rfl

/-- Claim C8 counterexample: get_history's count parameter is an unsigned
size_t, so a caller's negative count -1 converts to 2^64 - 1, IS forwarded to
the buffer, and is served as an ordinary query returning all retained
entries: the result depends on the buffer contents (so the buffer is
consulted) and no client-error rejection exists anywhere in get_history. -/
theorem negative_count_not_rejected :
    get_history_int [mkSnap 1] (-1) = [mkSnap 1] ∧
    get_history_int [mkSnap 1] (-1) ≠ get_history_int [] (-1) := by
  constructor <;> decide

/-- Claim C8 amended: a negative signed count (any value an int64 caller can
pass) wraps to at least 2^63 under the size_t conversion; get_history treats
it as exceeding the buffer size and returns ALL retained entries — the
request is forwarded to the buffer and served, never rejected with a
client-error signal. -/
theorem negative_count_returns_all (n : Int) (h : List MetricSnapshot)
    (hneg : n < 0) (hlo : -9223372036854775808 ≤ n)
    (hsize : h.length ≤ MAX_HISTORY_SIZE) :
    get_history_int h n = h := by
  have hsize1000 : h.length ≤ 1000 := hsize
  unfold get_history_int get_history size_t_of_int
  have hcount : h.length < (n % 18446744073709551616).toNat := by omega
  rw [if_pos (Or.inr hcount)]
  exact List.take_length h

theorem negative_count_returns_all_witness :
    get_history_int [mkSnap 1] (-1) = [mkSnap 1] :=
  negative_count_returns_all (-1) [mkSnap 1] (by decide) (by decide) (by decide)

/-- Claim C10: for every buffer state and every positive count n, the sequence
get_history returns is exactly the first min(n, size) entries of the full
history that get_history with count 0 returns — a front segment, the oldest
entries — and the count-0 query returns the buffer itself.  In the code the
query copies the queue under the lock (std::queue temp = metric_history) and
mutates only the copy, so the buffer is left unchanged; the embedding makes
get_history a pure function of the buffer for the same reason. -/
theorem history_is_front_segment (h : List MetricSnapshot) (n : Nat)
    (hn : 0 < n) :
    get_history h n = (get_history h 0).take (min n h.length) ∧
    get_history h 0 = h := by
  refine ⟨?_, get_history_zero h⟩
  rw [get_history_zero]
  unfold get_history
  by_cases hc : h.length < n
  · rw [if_pos (Or.inr hc)]
    have hmin : min n h.length = h.length := by omega
    rw [hmin]
  · have hnot : ¬ (n = 0 ∨ h.length < n) := by omega
    rw [if_neg hnot]
    have hmin : min n h.length = n := by omega
    rw [hmin]

theorem history_is_front_segment_witness :
    get_history [mkSnap 1, mkSnap 2, mkSnap 3] 5
        = (get_history [mkSnap 1, mkSnap 2, mkSnap 3] 0).take
            (min 5 ([mkSnap 1, mkSnap 2, mkSnap 3] : List MetricSnapshot).length) ∧
    get_history [mkSnap 1, mkSnap 2, mkSnap 3] 0
        = [mkSnap 1, mkSnap 2, mkSnap 3] :=
  history_is_front_segment [mkSnap 1, mkSnap 2, mkSnap 3] 5 (by decide)

end PerfMon
